import Mathlib

/-!
# Verification of the keydux shared-state library

Shallow embedding of the keydux sources:
* `StateManager` (read / write / watchForUpdates / endWatch) from `SharedStateProvider`
* `StorageAdaptor` (getItem / setItem, object cache, key namespacing) from `useStorage.ts`
* the value-resolution, `setValue` and `clear` logic of the `useSharedState` hook.

JavaScript values are modelled by `JValue`; JavaScript truthiness (`||`,
`cond ? a : b`) is modelled explicitly by `JValue.truthy` / `jsOr`.  Callback
references are modelled as identifiers (`Callback := Nat`); identity comparison
(`===`) is equality of identifiers.  A `write` returns the list of callback
invocations it performs (callback, lastValue, newValue), in the order the code
performs them.  JSON.stringify / JSON.parse are host-platform builtins and are
passed as parameters (`stringify`, `parse`); a parse failure (the thrown
`SyntaxError`, caught by `getItem`) is `Option.none`.
-/

/-- A JavaScript value, as far as the library observes it:  `undefined`, `null`,
booleans, numbers (modelled as integers), strings, arrays and objects.  An
absent object property reads as `undef`.  The library never inspects the
contents of a composite value — it only tests `typeof` and compares with `===`,
which is reference identity for objects — so a composite value is modelled by
its reference identifier, and equality of `JValue` is exactly JavaScript
`===`. -/
inductive JValue : Type
  | undef
  | null
  | bool (b : Bool)
  | num (n : Int)
  | str (s : String)
  | arr (ref : Nat)
  | obj (ref : Nat)
deriving DecidableEq

/-- JavaScript truthiness: `undefined`, `null`, `false`, `0` and `""` are falsy;
every object or array is truthy. -/
def JValue.truthy : JValue → Bool
  | .undef => false
  | .null => false
  | .bool b => b
  | .num n => n != 0
  | .str s => s != ""
  | .arr _ => true
  | .obj _ => true

/-- JavaScript `a || b`. -/
def jsOr (a b : JValue) : JValue :=
  if a.truthy then a else b

/-- The test `typeof v === 'object' && v !== null` used by `StorageAdaptor`:
true exactly for arrays and objects (`typeof null` is `'object'` but the code
excludes `null` explicitly). -/
def JValue.isObjectShaped : JValue → Bool
  | .arr _ => true
  | .obj _ => true
  | _ => false

/-- A callback reference (a `RenderFunction` in the source).  The state manager
never calls into the callback's body — it only stores references, compares them
with `===` and records invocations — so a callback is modelled by its reference
identifier. -/
abbrev Callback := Nat

/-- One callback invocation performed by `StateManager.write`: the source calls
`render({ lastValue, newValue: value })`. -/
structure Invocation where
  callback : Callback
  lastValue : JValue
  newValue : JValue
deriving DecidableEq

/-- The `StateManager` class: `state` maps keys to values (an absent key reads
as `undefined`), and `rerendersToTrigger` maps keys to subscriber lists (`none`
models an absent property, which is distinct from an empty list). -/
structure StateManager where
  state : String → JValue
  rerendersToTrigger : String → Option (List Callback)

/-- A freshly constructed `StateManager`: both object literals start empty. -/
def StateManager.empty : StateManager :=
  { state := fun _ => .undef, rerendersToTrigger := fun _ => none }

/-- `StateManager.read`: returns the state mapping itself. -/
def StateManager.read (sm : StateManager) : String → JValue :=
  sm.state

/-- `StateManager.write`: captures `lastValue`, overwrites `state[key]`, then
`this.rerendersToTrigger[key]?.forEach(render => render({lastValue, newValue}))`
— the optional chaining makes an absent subscriber list a no-notification case.
Returns the updated manager and the invocation list, in execution order. -/
def StateManager.write (sm : StateManager) (key : String) (value : JValue) :
    StateManager × List Invocation :=
  let lastValue := sm.state key
  ({ sm with state := fun k => if k = key then value else sm.state k },
   ((sm.rerendersToTrigger key).getD []).map (fun c => ⟨c, lastValue, value⟩))

/-- `StateManager.watchForUpdates`: creates the subscriber list when the
property is absent (`if (!this.rerendersToTrigger[key])` — an existing empty
array is truthy and kept), then pushes the callback at the end. -/
def StateManager.watchForUpdates (sm : StateManager) (key : String)
    (f : Callback) : StateManager :=
  let cur := (sm.rerendersToTrigger key).getD []
  { sm with
    rerendersToTrigger := fun k =>
      if k = key then some (cur ++ [f]) else sm.rerendersToTrigger k }

/-- `StateManager.endWatch`: evaluates
`this.rerendersToTrigger[key].filter((s) => s !== subscription)`.  When the
property is absent this is `undefined.filter(...)`, a thrown `TypeError`,
modelled as `none`; otherwise the key's list is replaced by the filter result
(which removes every `===`-matching occurrence). -/
def StateManager.endWatch (sm : StateManager) (key : String) (f : Callback) :
    Option StateManager :=
  match sm.rerendersToTrigger key with
  | none => none
  | some l =>
    some { sm with
      rerendersToTrigger := fun k =>
        if k = key then some (l.filter (fun s => s != f))
        else sm.rerendersToTrigger k }

/-- The persistence backend behind `StorageAdaptor` (`window.localStorage` or
the module-level `fallbackMemory` map): a key/string store where `getItem`
yields `null`/`undefined` (here `none`) for an absent key. -/
structure Backend where
  data : String → Option String

/-- Backend `getItem`. -/
def Backend.getItem (b : Backend) (key : String) : Option String :=
  b.data key

/-- Backend `setItem`. -/
def Backend.setItem (b : Backend) (key : String) (value : String) : Backend :=
  ⟨fun k => if k = key then some value else b.data k⟩

/-- A backend with nothing stored. -/
def Backend.empty : Backend := ⟨fun _ => none⟩

/-- The `StorageAdaptor` class: an optional key namespace (`pfx` models the
`prefix` field), the selected backend, and the in-memory `objectCache` of
parsed composite values (an absent cache property is `none`). -/
structure StorageAdaptor where
  pfx : Option String
  storage : Backend
  objectCache : String → Option JValue

/-- A freshly constructed adaptor over a given backend: the object cache
starts empty. -/
def StorageAdaptor.new (pfx : Option String) (storage : Backend) :
    StorageAdaptor :=
  { pfx := pfx, storage := storage, objectCache := fun _ => none }

/-- `StorageAdaptor.getStorageKey`: `this.prefix ? prefix-key : key`.  The
test is JavaScript truthiness, so an empty-string namespace is ignored like an
absent one. -/
def StorageAdaptor.getStorageKey (a : StorageAdaptor) (key : String) : String :=
  match a.pfx with
  | some p => if p = "" then key else p ++ "-" ++ key
  | none => key

/-- The backend path of `StorageAdaptor.getItem`, taken when the object cache
misses: read the raw text (`item`), evaluate `item ? JSON.parse(item) : undefined`
(`null` and `""` are falsy), catch a parse failure as `undefined`, and cache the
parsed value when `typeof parsedItem === 'object' && parsedItem !== null`. -/
def StorageAdaptor.getItemUncached (a : StorageAdaptor)
    (parse : String → Option JValue) (storageKey : String) :
    JValue × StorageAdaptor :=
  match a.storage.getItem storageKey with
  | none => (.undef, a)
  | some s =>
    if s = "" then (.undef, a)
    else
      match parse s with
      | none => (.undef, a)
      | some parsedItem =>
        if parsedItem.isObjectShaped then
          (parsedItem,
           { a with objectCache := fun k =>
               if k = storageKey then some parsedItem else a.objectCache k })
        else (parsedItem, a)

/-- `StorageAdaptor.getItem`: `if (this.objectCache[storageKey]) return it`
(a truthiness test — an absent property is falsy), otherwise the backend
path.  Returns the value and the possibly cache-extended adaptor; the `try`
/`catch` in the source means no error ever escapes, which is why the result
is a plain value and not an `Except`. -/
def StorageAdaptor.getItem (a : StorageAdaptor)
    (parse : String → Option JValue) (key : String) :
    JValue × StorageAdaptor :=
  match a.objectCache (a.getStorageKey key) with
  | some cached =>
    if cached.truthy then (cached, a)
    else a.getItemUncached parse (a.getStorageKey key)
  | none => a.getItemUncached parse (a.getStorageKey key)

/-- `StorageAdaptor.setItem`: cache the value when it is composite, and always
write its serialized text to the backend. -/
def StorageAdaptor.setItem (a : StorageAdaptor)
    (stringify : JValue → String) (key : String) (value : JValue) :
    StorageAdaptor :=
  { a with
    objectCache :=
      if value.isObjectShaped then
        fun k => if k = a.getStorageKey key then some value else a.objectCache k
      else a.objectCache,
    storage := a.storage.setItem (a.getStorageKey key) (stringify value) }

/-- The parameters of one `useSharedState` activation (the `debounceTime`
parameter only feeds the debounce hook and plays no role in the claims
below). -/
structure HookParams where
  key : String
  initialValue : JValue
  shouldSaveToStorage : Bool := false

/-- The argument of `setValue`: either a plain value or a transform function
(`typeof value === 'function'`). -/
inductive ValueOrFunction where
  | val (v : JValue)
  | fn (f : JValue → JValue)

/-- `fixedInitialValue` is `useMemo(() => initialValue, [])`: the empty
dependency list makes it the `initialValue` of the consumer's first
activation, unchanged on every later activation. -/
def capturedInitialValue (firstActivation : HookParams) : JValue :=
  firstActivation.initialValue

/-- The hook's current-value derivation:
`storedValue = shouldSaveToStorage ? storage.getItem(key) : undefined` followed
by `val = read()[key] || storedValue || fixedInitialValue`.  Returns `val`
together with the adaptor as `getItem` may have extended its cache. -/
def resolvedValue (sm : StateManager) (a : StorageAdaptor)
    (parse : String → Option JValue) (p : HookParams)
    (fixedInitialValue : JValue) : JValue × StorageAdaptor :=
  let stored :=
    if p.shouldSaveToStorage then a.getItem parse p.key else (.undef, a)
  (jsOr (jsOr (sm.read p.key) stored.1) fixedInitialValue, stored.2)

/-- The hook's `update` (returned as `setValue`): a function argument is
applied to the raw slot value `read()[key]`, the result is written to the
state manager, and, when `shouldSaveToStorage` is set, also to the storage
adaptor.  Returns the new manager, the new adaptor and the write's callback
invocations. -/
def hookUpdate (sm : StateManager) (a : StorageAdaptor)
    (stringify : JValue → String) (p : HookParams) (v : ValueOrFunction) :
    StateManager × StorageAdaptor × List Invocation :=
  let value :=
    match v with
    | .val x => x
    | .fn f => f (sm.read p.key)
  let written := sm.write p.key value
  (written.1,
   if p.shouldSaveToStorage then a.setItem stringify p.key value else a,
   written.2)

/-- The hook's `clear`: `() => { update(initialValue) }` — note that it passes
the current activation's `initialValue`, not `fixedInitialValue`. -/
def hookClear (sm : StateManager) (a : StorageAdaptor)
    (stringify : JValue → String) (p : HookParams) :
    StateManager × StorageAdaptor × List Invocation :=
  hookUpdate sm a stringify p (.val p.initialValue)

/-- `n` successive `watchForUpdates` registrations of the same callback
reference. -/
def watchN (sm : StateManager) (key : String) (f : Callback) : Nat → StateManager
  | 0 => sm
  | n + 1 => (watchN sm key f n).watchForUpdates key f

/-- A concrete stand-in for `JSON.stringify`, covering the sample values the
closed statements below evaluate (the adaptor treats the serializer as an
opaque host builtin, so theorems quantify over it and only the concrete
evaluations need this instance). -/
def testStringify : JValue → String
  | .num 0 => "0"
  | .num 1 => "1"
  | .num 5 => "5"
  | .bool true => "true"
  | .obj r => "obj:" ++ toString r
  | _ => "?"

/-- A concrete stand-in for `JSON.parse`, inverse to `testStringify` on the
sample values; every other string is a parse failure. -/
def testParse : String → Option JValue
  | "0" => some (.num 0)
  | "1" => some (.num 1)
  | "5" => some (.num 5)
  | "true" => some (.bool true)
  | "obj:0" => some (.obj 0)
  | _ => none

/-- Helper: unfolding a successful `endWatch`. -/
lemma endWatch_some {sm sm' : StateManager} {k : String} {f : Callback}
    (h : sm.endWatch k f = some sm') :
    ∃ l, sm.rerendersToTrigger k = some l ∧
      sm' = { sm with
        rerendersToTrigger := fun k' =>
          if k' = k then some (l.filter (fun s => s != f))
          else sm.rerendersToTrigger k' } := by
  unfold StateManager.endWatch at h
  cases hl : sm.rerendersToTrigger k with
  | none => rw [hl] at h; exact absurd h (by simp)
  | some l =>
    rw [hl] at h
    exact ⟨l, rfl, by injection h with h'; exact h'.symm⟩

/-- C2: writing `v` under key `k` and then reading yields exactly `v` at entry
`k` of the returned mapping. -/
theorem c2_write_then_read (sm : StateManager) (k : String) (v : JValue) :
    ((sm.write k v).1.read) k = v := by
  simp [StateManager.write, StateManager.read]

/-- C1: `write k v` invokes exactly the callbacks registered for `k`, once per
registration entry and in registration order (the invocation list projects to
the subscriber list), each invocation receiving the prior value of `k` and `v`;
and after a successful `endWatch k f`, no invocation of a `write k v` targets
`f`.  Synchrony and sequentiality are built into the model: `write` returns
only after producing its whole invocation list, in execution order. -/
theorem c1_write_notifies_in_order (sm sm' : StateManager) (k : String)
    (v : JValue) (f : Callback) (h : sm.endWatch k f = some sm') :
    ((sm.write k v).2.map Invocation.callback
      = (sm.rerendersToTrigger k).getD [])
    ∧ ((sm.write k v).2.all
        (fun i => i.lastValue == sm.state k && i.newValue == v)) = true
    ∧ ((sm'.write k v).2.all (fun i => i.callback != f)) = true := by
  obtain ⟨l, hl, rfl⟩ := endWatch_some h
  refine ⟨?_, ?_, ?_⟩
  · simp only [StateManager.write, List.map_map]
    show List.map id _ = _
    exact List.map_id _
  · simp only [StateManager.write, List.all_eq_true, List.mem_map]
    rintro i ⟨c, hc, rfl⟩
    simp
  · simp only [StateManager.write, List.all_eq_true, List.mem_map]
    rintro i ⟨c, hc, rfl⟩
    simp at hc
    simpa using hc.2

/-- C1 witness: two callbacks `1, 2` registered for `"k"`; a write invokes
`[1, 2]` in order with the prior value `undefined`; after `endWatch "k" 1` no
invocation targets `1`. -/
theorem c1_witness :
    ((((StateManager.empty.watchForUpdates "k" 1).watchForUpdates "k" 2).write
        "k" (.num 5)).2.map Invocation.callback = [1, 2])
    ∧ ((((StateManager.empty.watchForUpdates "k" 1).watchForUpdates "k" 2).write
        "k" (.num 5)).2.all
        (fun i => i.lastValue == JValue.undef && i.newValue == JValue.num 5)) = true
    ∧ ((((StateManager.empty.watchForUpdates "k" 1).watchForUpdates "k" 2).endWatch
        "k" 1).map
        (fun m => (m.write "k" (.num 5)).2.all (fun i => i.callback != 1)))
      = some true := by
  have hS : ((((StateManager.empty.watchForUpdates "k" 1).watchForUpdates "k" 2)).endWatch
      "k" 1).isSome = true := rfl
  have hEq := (Option.some_get hS).symm
  have h := c1_write_notifies_in_order _ _ "k" (.num 5) 1 hEq
  refine ⟨?_, ?_, ?_⟩
  · rw [h.1]; rfl
  · exact h.2.1
  · rw [hEq, Option.map_some']
    exact congrArg some h.2.2

/-- C9 (frame): `write k v` changes only the slot for `k` — every other key's
value is unchanged, the whole subscriber-list mapping is untouched, and the
invocations performed are exactly those of the callbacks registered for `k`
(so none registered only under another key is invoked). -/
theorem c9_write_frame (sm : StateManager) (k : String) (v : JValue)
    (k' : String) (h : k' ≠ k) :
    (sm.write k v).1.state k' = sm.state k'
    ∧ (sm.write k v).1.rerendersToTrigger = sm.rerendersToTrigger
    ∧ (sm.write k v).2.map Invocation.callback
        = (sm.rerendersToTrigger k).getD [] := by
  refine ⟨?_, rfl, ?_⟩
  · simp [StateManager.write, if_neg h]
  · simp only [StateManager.write, List.map_map]
    show List.map id _ = _
    exact List.map_id _

/-- C9 witness: with `"a" ↦ 2` stored and callback `7` registered for `"k"`,
a write to `"k"` leaves `"a"` at `2`, the subscriber mapping untouched, and
invokes exactly `[7]`. -/
theorem c9_witness :
    ((((StateManager.empty.watchForUpdates "k" 7).write "a" (.num 2)).1.write
        "k" (.num 3)).1.state "a" = .num 2)
    ∧ ((((StateManager.empty.watchForUpdates "k" 7).write "a" (.num 2)).1.write
        "k" (.num 3)).1.rerendersToTrigger
      = (((StateManager.empty.watchForUpdates "k" 7).write "a"
          (.num 2)).1).rerendersToTrigger)
    ∧ ((((StateManager.empty.watchForUpdates "k" 7).write "a" (.num 2)).1.write
        "k" (.num 3)).2.map Invocation.callback = [7]) := by
  have h := c9_write_frame
    (((StateManager.empty.watchForUpdates "k" 7).write "a" (.num 2)).1)
    "k" (.num 3) "a" (by decide)
  refine ⟨?_, h.2.1, ?_⟩
  · rw [h.1]; rfl
  · rw [h.2.2]; rfl

/-- C10: `watchForUpdates` does not deduplicate — registering the same
callback reference `n` more times makes the key's subscriber list contain it
`n` more times, and a subsequent `write` to that key invokes it `n` more
times. -/
theorem c10_watch_accumulates (sm : StateManager) (k : String) (f : Callback)
    (n : Nat) (v : JValue) :
    (((watchN sm k f n).rerendersToTrigger k).getD []).count f
      = ((sm.rerendersToTrigger k).getD []).count f + n
    ∧ ((watchN sm k f n).write k v).2.countP (fun i => i.callback == f)
      = ((sm.rerendersToTrigger k).getD []).count f + n := by
  have hcount : ∀ m : Nat,
      (((watchN sm k f m).rerendersToTrigger k).getD []).count f
        = ((sm.rerendersToTrigger k).getD []).count f + m := by
    intro m
    induction m with
    | zero => simp [watchN]
    | succ m ih =>
      have happ : ((watchN sm k f (m + 1)).rerendersToTrigger k).getD []
          = ((watchN sm k f m).rerendersToTrigger k).getD [] ++ [f] := by
        simp [watchN, StateManager.watchForUpdates]
      rw [happ, List.count_append, ih]
      simp
      omega
  refine ⟨hcount n, ?_⟩
  rw [StateManager.write]
  simp only [List.countP_map]
  rw [show ((fun i => Invocation.callback i == f) ∘
      fun c => Invocation.mk c ((watchN sm k f n).state k) v)
    = (fun c => c == f) from rfl]
  rw [← List.count, hcount n]

/-- C6 (amended): on a key whose subscriber list exists, `endWatch` replaces
the list by the identity-filtered list — removing every `===`-matching
occurrence of the callback, keeping all other callbacks in order — leaving the
state and every other key's list untouched, and acting as a no-op when the
callback is absent; on a key with no subscriber list it fails (the source
calls `.filter` on `undefined`, a `TypeError`) rather than being a no-op. -/
theorem c6_endwatch_removes_all (sm : StateManager) (k : String) (f : Callback) :
    (sm.rerendersToTrigger k = none → sm.endWatch k f = none)
    ∧ (∀ l, sm.rerendersToTrigger k = some l →
        ∃ sm', sm.endWatch k f = some sm'
          ∧ sm'.rerendersToTrigger k = some (l.filter (fun s => s != f))
          ∧ sm'.state = sm.state
          ∧ (∀ k', k' ≠ k → sm'.rerendersToTrigger k' = sm.rerendersToTrigger k')
          ∧ (f ∉ l → sm' = sm)) := by
  constructor
  · intro h
    unfold StateManager.endWatch
    rw [h]
  · intro l hl
    refine ⟨{ sm with rerendersToTrigger := fun k' =>
        if k' = k then some (l.filter (fun s => s != f))
        else sm.rerendersToTrigger k' }, ?_, by simp, rfl, ?_, ?_⟩
    · unfold StateManager.endWatch
      rw [hl]
    · intro k' hk'
      simp [if_neg hk']
    · intro hf
      have hfilter : l.filter (fun s => s != f) = l := by
        apply List.filter_eq_self.mpr
        intro s hs
        simp only [bne_iff_ne, ne_eq, decide_eq_true_eq]
        exact fun hc => hf (hc ▸ hs)
      have hfun : (fun k' => if k' = k
            then some (l.filter (fun s => s != f))
            else sm.rerendersToTrigger k') = sm.rerendersToTrigger := by
        funext k'
        by_cases hk : k' = k
        · subst hk; rw [if_pos rfl, hfilter, hl]
        · rw [if_neg hk]
      cases sm with
      | mk st rr =>
        simp only at hfun
        simp [hfun]

/-- C6 counterexample to the claim as stated: with the same reference
registered twice, `endWatch` removes both occurrences (result `[]`, not the
claimed `[1]`); and on a key with no subscriber list it is not a no-op but a
failure. -/
theorem c6_counterexample :
    ((((StateManager.empty.watchForUpdates "k" 1).watchForUpdates "k" 1).endWatch
        "k" 1).map (fun m => (m.rerendersToTrigger "k").getD [])
      = some ([] : List Callback))
    ∧ ((((StateManager.empty.watchForUpdates "k" 1).watchForUpdates "k" 1).endWatch
        "k" 1).map (fun m => (m.rerendersToTrigger "k").getD [])
      ≠ some ([1] : List Callback))
    ∧ StateManager.empty.endWatch "k" 1 = none := by
  refine ⟨rfl, by decide, rfl⟩

/-- C6 witness: removing an unregistered reference `3` from the existing list
`[1, 2]` leaves the list unchanged. -/
theorem c6_witness :
    ((((StateManager.empty.watchForUpdates "k" 1).watchForUpdates "k" 2).endWatch
        "k" 3).map (fun m => (m.rerendersToTrigger "k").getD []))
      = some ([1, 2] : List Callback) := by
  obtain ⟨sm', h1, _, _, _, h5⟩ :=
    (c6_endwatch_removes_all
      ((StateManager.empty.watchForUpdates "k" 1).watchForUpdates "k" 2)
      "k" 3).2 [1, 2] rfl
  rw [h1, h5 (by decide), Option.map_some']
  rfl

/-- C3 (amended): the hook's current value is the in-memory slot value
whenever that value is truthy; otherwise the persisted value when persistence
is enabled and that value is truthy; otherwise the captured initial value.
(The source computes `read()[key] || storedValue || fixedInitialValue`, so a
falsy stored slot value — `0`, `""`, `false`, `null` — is skipped, not just an
absent one.) -/
theorem c3_resolution_truthy (sm : StateManager) (a : StorageAdaptor)
    (parse : String → Option JValue) (p : HookParams)
    (fixedInitialValue : JValue) :
    ((sm.read p.key).truthy = true →
      (resolvedValue sm a parse p fixedInitialValue).1 = sm.read p.key)
    ∧ ((sm.read p.key).truthy = false →
        (if p.shouldSaveToStorage then (a.getItem parse p.key).1
         else .undef).truthy = true →
        (resolvedValue sm a parse p fixedInitialValue).1
          = (if p.shouldSaveToStorage then (a.getItem parse p.key).1
             else .undef))
    ∧ ((sm.read p.key).truthy = false →
        (if p.shouldSaveToStorage then (a.getItem parse p.key).1
         else .undef).truthy = false →
        (resolvedValue sm a parse p fixedInitialValue).1 = fixedInitialValue) := by
  refine ⟨?_, ?_, ?_⟩ <;> intro h1 <;>
    try intro h2
  · simp [resolvedValue, jsOr, h1]
  · simp only [resolvedValue, jsOr, apply_ite Prod.fst] at *
    rw [h1]
    simp only [Bool.false_eq_true, if_false] at *
    rw [h2]
    simp [h2]
  · simp only [resolvedValue, jsOr, apply_ite Prod.fst] at *
    rw [h1]
    simp only [Bool.false_eq_true, if_false] at *
    rw [h2]
    simp [h2]

/-- C3 counterexample to the claim as stated: the slot for `"k"` holds the
value `0` (so it "holds a value"), yet the resolved current value is the
initial value `7`, not the slot value. -/
theorem c3_counterexample :
    ((StateManager.empty.write "k" (.num 0)).1.read "k" ≠ .undef)
    ∧ (resolvedValue (StateManager.empty.write "k" (.num 0)).1
        (StorageAdaptor.new none Backend.empty) testParse
        ⟨"k", .num 7, false⟩ (.num 7)).1
      ≠ (StateManager.empty.write "k" (.num 0)).1.read "k" := by
  constructor <;> decide

/-- C3 witness: a truthy slot value `3` is returned as the current value. -/
theorem c3_witness :
    (resolvedValue (StateManager.empty.write "k" (.num 3)).1
      (StorageAdaptor.new none Backend.empty) testParse
      ⟨"k", .num 7, false⟩ (.num 7)).1 = .num 3 := by
  exact ((c3_resolution_truthy (StateManager.empty.write "k" (.num 3)).1
    (StorageAdaptor.new none Backend.empty) testParse
    ⟨"k", .num 7, false⟩ (.num 7)).1 (by decide)).trans (by decide)

/-- Helper: `getStorageKey` depends only on the namespace field. -/
lemma getStorageKey_pfx {a a' : StorageAdaptor} (h : a'.pfx = a.pfx)
    (key : String) : a'.getStorageKey key = a.getStorageKey key := by
  unfold StorageAdaptor.getStorageKey
  rw [h]

/-- Helper: composite values are truthy. -/
lemma truthy_of_isObjectShaped {v : JValue} (h : v.isObjectShaped = true) :
    v.truthy = true := by
  cases v <;> simp_all [JValue.isObjectShaped, JValue.truthy]

/-- C4 (amended): `clear()` is exactly `setValue` applied to the *current*
activation's `initialValue` (the source's `clear` closes over `initialValue`,
not over the captured `fixedInitialValue`), so after `clear()` the slot holds
the current activation's initial value, whatever was written before; it
restores the first-activation value only when the two coincide. -/
theorem c4_clear_writes_current_initial (sm : StateManager)
    (a : StorageAdaptor) (stringify : JValue → String) (p : HookParams) :
    hookClear sm a stringify p = hookUpdate sm a stringify p (.val p.initialValue)
    ∧ ((hookClear sm a stringify p).1.read) p.key = p.initialValue := by
  refine ⟨rfl, ?_⟩
  simp [hookClear, hookUpdate, StateManager.write, StateManager.read]

/-- C4 counterexample to the claim as stated: the first activation captured
initial value `0`, a later activation supplies `initialValue = 5`, and its
`clear()` leaves the slot at `5`, not at the captured `0`. -/
theorem c4_counterexample :
    capturedInitialValue ⟨"k", .num 0, false⟩ = .num 0
    ∧ (hookClear (StateManager.empty.write "k" (.num 9)).1
        (StorageAdaptor.new none Backend.empty) testStringify
        ⟨"k", .num 5, false⟩).1.read "k" = .num 5
    ∧ JValue.num 5 ≠ capturedInitialValue ⟨"k", .num 0, false⟩ := by
  refine ⟨rfl, by decide, by decide⟩

/-- C7: when the object cache has no entry for a key and the backend text for
it fails structured decoding, `getItem` returns `undefined` and leaves the
adaptor unchanged — the decode failure is caught inside `getItem` and never
surfaced — and a consumer with an empty in-memory slot then resolves to its
initial value. -/
theorem c7_malformed_is_absent (a : StorageAdaptor)
    (parse : String → Option JValue) (p : HookParams) (s : String)
    (fixedInitialValue : JValue)
    (hcache : a.objectCache (a.getStorageKey p.key) = none)
    (hstore : a.storage.data (a.getStorageKey p.key) = some s)
    (hbad : parse s = none) :
    (a.getItem parse p.key).1 = .undef
    ∧ (a.getItem parse p.key).2 = a
    ∧ (resolvedValue StateManager.empty a parse p fixedInitialValue).1
        = fixedInitialValue := by
  have hget : a.getItem parse p.key = (.undef, a) := by
    unfold StorageAdaptor.getItem
    rw [hcache]
    unfold StorageAdaptor.getItemUncached
    unfold Backend.getItem
    rw [hstore]
    by_cases hs : s = ""
    · simp [hs]
    · simp [hs, hbad]
  refine ⟨by rw [hget], by rw [hget], ?_⟩
  unfold resolvedValue
  by_cases hsave : p.shouldSaveToStorage
  · simp [hsave, hget, jsOr, StateManager.read, StateManager.empty,
      JValue.truthy]
  · simp [hsave, jsOr, StateManager.read, StateManager.empty, JValue.truthy]

/-- C7 witness: backend text `"###"` under key `"k"` fails to decode;
`getItem` yields `undefined` and the consumer resolves to its initial
value `7`. -/
theorem c7_witness :
    ((StorageAdaptor.new none (Backend.empty.setItem "k" "###")).getItem
      testParse "k").1 = .undef
    ∧ (resolvedValue StateManager.empty
        (StorageAdaptor.new none (Backend.empty.setItem "k" "###"))
        testParse ⟨"k", .num 7, true⟩ (.num 7)).1 = .num 7 := by
  have h := c7_malformed_is_absent
    (StorageAdaptor.new none (Backend.empty.setItem "k" "###"))
    testParse ⟨"k", .num 7, true⟩ "###" (.num 7) rfl rfl rfl
  exact ⟨h.1, h.2.2⟩

/-- C5 (amended): with persistence enabled, `setValue v` for a *truthy* value
`v` whose serialized text is non-empty and round-trips through the parser,
followed by a fresh consumer activation — fresh state manager, fresh adaptor
with an empty object cache and the same namespace, over the retained backend —
resolves to `v` rather than to the initial value.  (For a falsy `v` — `0`,
`""`, `false`, `null` — the `||` chain skips the persisted value and yields
the initial value instead; see the counterexample.) -/
theorem c5_persisted_roundtrip (sm : StateManager) (a : StorageAdaptor)
    (stringify : JValue → String) (parse : String → Option JValue)
    (p : HookParams) (v fixedInitialValue : JValue)
    (hsave : p.shouldSaveToStorage = true)
    (hrt : parse (stringify v) = some v)
    (hne : stringify v ≠ "")
    (htruthy : v.truthy = true) :
    (resolvedValue StateManager.empty
      (StorageAdaptor.new a.pfx
        ((hookUpdate sm a stringify p (.val v)).2.1).storage)
      parse p fixedInitialValue).1 = v := by
  have hstorage : ((hookUpdate sm a stringify p (.val v)).2.1).storage
      = a.storage.setItem (a.getStorageKey p.key) (stringify v) := by
    simp [hookUpdate, hsave, StorageAdaptor.setItem]
  have hkey : (StorageAdaptor.new a.pfx
      ((hookUpdate sm a stringify p (.val v)).2.1).storage).getStorageKey p.key
      = a.getStorageKey p.key := getStorageKey_pfx rfl p.key
  have hget : ((StorageAdaptor.new a.pfx
      ((hookUpdate sm a stringify p (.val v)).2.1).storage).getItem
        parse p.key).1 = v := by
    unfold StorageAdaptor.getItem
    show ((StorageAdaptor.new a.pfx _).getItemUncached parse _).1 = v
    unfold StorageAdaptor.getItemUncached
    rw [hkey]
    show (match ((hookUpdate sm a stringify p (.val v)).2.1).storage.getItem
        (a.getStorageKey p.key) with
      | none => ((JValue.undef, _) : JValue × StorageAdaptor)
      | some s => _).1 = v
    rw [hstorage]
    simp only [Backend.getItem, Backend.setItem]
    simp [hrt, if_neg hne]
    by_cases hobj : v.isObjectShaped <;> simp [hobj]
  unfold resolvedValue
  rw [hsave]
  simp only [if_true, hget]
  unfold jsOr
  rw [show StateManager.empty.read p.key = JValue.undef from rfl]
  rw [show JValue.undef.truthy = false from rfl]
  simp [htruthy]

/-- C5 counterexample to the claim as stated: with persistence enabled,
`setValue 0` stores `0` on the backend (and `0` round-trips through the
serializer), yet a fresh activation resolves to the initial value `1`, not to
`0`, because the persisted `0` is falsy and skipped by the `||` chain. -/
theorem c5_counterexample :
    testParse (testStringify (.num 0)) = some (.num 0)
    ∧ (resolvedValue StateManager.empty
        (StorageAdaptor.new none
          ((hookUpdate StateManager.empty
            (StorageAdaptor.new none Backend.empty) testStringify
            ⟨"counter", .num 1, true⟩ (.val (.num 0))).2.1).storage)
        testParse ⟨"counter", .num 1, true⟩ (.num 1)).1 = .num 1
    ∧ JValue.num 1 ≠ .num 0 := by
  refine ⟨rfl, by decide, by decide⟩

/-- C5 witness: the truthy value `5` round-trips and survives the simulated
reload. -/
theorem c5_witness :
    testParse (testStringify (.num 5)) = some (.num 5)
    ∧ (JValue.num 5).truthy = true
    ∧ (resolvedValue StateManager.empty
        (StorageAdaptor.new none
          ((hookUpdate StateManager.empty
            (StorageAdaptor.new none Backend.empty) testStringify
            ⟨"counter", .num 1, true⟩ (.val (.num 5))).2.1).storage)
        testParse ⟨"counter", .num 1, true⟩ (.num 1)).1 = .num 5 := by
  refine ⟨rfl, rfl, ?_⟩
  exact c5_persisted_roundtrip StateManager.empty
    (StorageAdaptor.new none Backend.empty) testStringify testParse
    ⟨"counter", .num 1, true⟩ (.num 5) (.num 1) rfl rfl (by decide) rfl

/-- C8: when a cache-miss `getItem` decodes the backend text, a composite
result is written to the object cache and every subsequent `getItem` for the
key answers from the cache — the same instance, returned even under a
different parser and a changed backend, so it is not a fresh parse — while a
primitive result leaves the adaptor entirely unchanged, so every subsequent
`getItem` re-reads and re-decodes whatever text the backend then holds. -/
theorem c8_object_cache (a : StorageAdaptor)
    (parse parse₂ : String → Option JValue) (key s s₂ : String)
    (v w : JValue) (b₂ : Backend)
    (hcache : a.objectCache (a.getStorageKey key) = none)
    (hstore : a.storage.data (a.getStorageKey key) = some s)
    (hs : s ≠ "")
    (hparse : parse s = some v) :
    (a.getItem parse key).1 = v
    ∧ (v.isObjectShaped = true →
        (a.getItem parse key).2.objectCache (a.getStorageKey key) = some v
        ∧ (({ (a.getItem parse key).2 with storage := b₂ }).getItem
            parse₂ key).1 = v)
    ∧ (v.isObjectShaped = false →
        (a.getItem parse key).2 = a
        ∧ (b₂.data (a.getStorageKey key) = some s₂ → s₂ ≠ "" →
            parse₂ s₂ = some w →
            (({ a with storage := b₂ }).getItem parse₂ key).1 = w)) := by
  have hget : a.getItem parse key
      = if v.isObjectShaped then
          (v, { a with objectCache := fun k =>
            if k = a.getStorageKey key then some v else a.objectCache k })
        else (v, a) := by
    unfold StorageAdaptor.getItem
    rw [hcache]
    unfold StorageAdaptor.getItemUncached Backend.getItem
    rw [hstore]
    simp [if_neg hs, hparse]
  refine ⟨?_, ?_, ?_⟩
  · rw [hget]
    by_cases hobj : v.isObjectShaped <;> simp [hobj]
  · intro hobj
    rw [hget, if_pos hobj]
    constructor
    · simp
    · have hpfx : ({ ({ a with objectCache := fun k =>
          if k = a.getStorageKey key then some v else a.objectCache k }) with
            storage := b₂ } : StorageAdaptor).getStorageKey key
          = a.getStorageKey key := getStorageKey_pfx rfl key
      unfold StorageAdaptor.getItem
      rw [hpfx]
      simp [truthy_of_isObjectShaped hobj]
  · intro hobj
    rw [hget, if_neg (by simp [hobj])]
    refine ⟨rfl, ?_⟩
    intro h₂ hs₂ hp₂
    have hpfx : ({ a with storage := b₂ } : StorageAdaptor).getStorageKey key
        = a.getStorageKey key := getStorageKey_pfx rfl key
    unfold StorageAdaptor.getItem
    rw [hpfx, hcache]
    unfold StorageAdaptor.getItemUncached Backend.getItem
    simp only [h₂, if_neg hs₂, hp₂]
    by_cases hobj₂ : w.isObjectShaped <;> simp [hobj₂]

/-- C8 witness: backend text `"obj:0"` decodes to the composite value `obj 0`,
which is cached and then served from the cache even after the backend entry
changes to `"5"`; primitive text `"1"` is not cached, and after the backend
entry changes to `"5"` a repeated `getItem` re-decodes and returns `5`. -/
theorem c8_witness :
    (((StorageAdaptor.new none (Backend.empty.setItem "k" "obj:0")).getItem
        testParse "k").1 = .obj 0)
    ∧ ((({ ((StorageAdaptor.new none (Backend.empty.setItem "k" "obj:0")).getItem
        testParse "k").2 with
          storage := Backend.empty.setItem "k" "5" }).getItem
        testParse "k").1 = .obj 0)
    ∧ (((StorageAdaptor.new none (Backend.empty.setItem "k" "1")).getItem
        testParse "k").2 = StorageAdaptor.new none (Backend.empty.setItem "k" "1"))
    ∧ ((({ (StorageAdaptor.new none (Backend.empty.setItem "k" "1")) with
          storage := Backend.empty.setItem "k" "5" }).getItem
        testParse "k").1 = .num 5) := by
  have h1 := c8_object_cache
    (StorageAdaptor.new none (Backend.empty.setItem "k" "obj:0"))
    testParse testParse "k" "obj:0" "5" (.obj 0) (.num 5)
    (Backend.empty.setItem "k" "5") rfl rfl (by decide) rfl
  have h2 := c8_object_cache
    (StorageAdaptor.new none (Backend.empty.setItem "k" "1"))
    testParse testParse "k" "1" "5" (.num 1) (.num 5)
    (Backend.empty.setItem "k" "5") rfl rfl (by decide) rfl
  exact ⟨h1.1, (h1.2.1 rfl).2, (h2.2.2 rfl).1,
    (h2.2.2 rfl).2 rfl (by decide) rfl⟩
